import Mathlib

/-!
# Verification of the vault local record store

A shallow embedding of `vault.py`: the SQLite-backed CRUD layer for the
job-search tracking domain (jobs, companies, contacts, offers, job alerts,
interview sessions).  Tables are modelled as lists of typed rows in insertion
(rowid) order; the engine clock and the Python `datetime.now().isoformat()`
clock are explicit string parameters; fresh ids (`uuid.uuid4()`) are explicit
parameters assumed fresh where an operation needs it.
-/

namespace Vault

/-! ### The serialized text encoding of list-valued columns

`json.dumps` / `json.loads` restricted to the column contract (ordered
sequences of strings).  The encoder mirrors `json.dumps(list_of_str)`:
`[` , elements separated by `, `, `]`, each element double-quoted with `"`
and `\` escaped by a backslash.  The decoder is a parser for exactly that
grammar; it returns `none` where `json.loads` raises or yields a non-list. -/

def escChar (c : Char) : List Char :=
  if c = '"' ∨ c = '\\' then ['\\', c] else [c]

def escStr : List Char → List Char
  | [] => []
  | c :: cs => escChar c ++ escStr cs

def dumpChars (s : String) : List Char :=
  '"' :: (escStr s.data ++ ['"'])

def itemsChars : List String → List Char
  | [] => []
  | [s] => dumpChars s
  | s :: rest => dumpChars s ++ ',' :: ' ' :: itemsChars rest

def jsonDumpsStrList (l : List String) : String :=
  String.mk ('[' :: (itemsChars l ++ [']']))

def parseStrBody : List Char → Option (List Char × List Char)
  | [] => none
  | c :: cs =>
    if c = '\\' then
      match cs with
      | [] => none
      | d :: cs2 => (parseStrBody cs2).map (fun p => (d :: p.1, p.2))
    else if c = '"' then some ([], cs)
    else (parseStrBody cs).map (fun p => (c :: p.1, p.2))

def parseTail : Nat → List Char → Option (List (List Char))
  | 0, _ => none
  | fuel+1, l =>
    match l with
    | '"' :: rest =>
      match parseStrBody rest with
      | none => none
      | some (b, r) =>
        match r with
        | [']'] => some [b]
        | ',' :: ' ' :: r2 => (parseTail fuel r2).map (b :: ·)
        | _ => none
    | _ => none

def jsonLoadsStrList (s : String) : Option (List String) :=
  match s.data with
  | ['[', ']'] => some []
  | '[' :: rest => (parseTail s.data.length rest).map (·.map String.mk)
  | _ => none

theorem parseStrBody_append (cs : List Char) :
    ∀ rest, parseStrBody (escStr cs ++ '"' :: rest) = some (cs, rest) := by
  induction cs with
  | nil =>
    intro rest
    rw [escStr, List.nil_append, parseStrBody.eq_def]
    simp +decide
  | cons c cs ih =>
    intro rest
    by_cases hc : c = '"' ∨ c = '\\'
    · have : escStr (c :: cs) ++ '"' :: rest =
          '\\' :: c :: (escStr cs ++ '"' :: rest) := by
        rcases hc with h | h <;> subst h <;> simp [escStr, escChar]
      rw [this, parseStrBody.eq_def]
      simp [ih rest]
    · push_neg at hc
      have : escStr (c :: cs) ++ '"' :: rest =
          c :: (escStr cs ++ '"' :: rest) := by
        simp [escStr, escChar, hc.1, hc.2]
      rw [this, parseStrBody.eq_def]
      simp [hc.1, hc.2, ih rest]

theorem parseTail_items (rest : List String) :
    ∀ (s : String) (fuel : Nat), rest.length < fuel →
      parseTail fuel (itemsChars (s :: rest) ++ [']']) =
        some ((s :: rest).map String.data) := by
  induction rest with
  | nil =>
    intro s fuel hf
    cases fuel with
    | zero => omega
    | succ fuel =>
      simp [itemsChars, dumpChars, parseTail, List.append_assoc,
        parseStrBody_append]
  | cons t more ih =>
    intro s fuel hf
    cases fuel with
    | zero => omega
    | succ fuel =>
      have h2 := ih t fuel (by simpa using Nat.lt_of_succ_lt_succ hf)
      simp [itemsChars, dumpChars, parseTail, List.append_assoc,
        parseStrBody_append] at h2 ⊢
      simp [h2]

theorem itemsChars_head (s : String) (rest : List String) :
    ∃ ys, itemsChars (s :: rest) = '"' :: ys := by
  cases rest <;> exact ⟨_, rfl⟩

theorem itemsChars_length_ge :
    ∀ ss : List String, ss.length ≤ (itemsChars ss).length := by
  intro ss
  induction ss with
  | nil => simp [itemsChars]
  | cons s rest ih =>
    cases rest with
    | nil => simp [itemsChars, dumpChars]
    | cons t more =>
      simp only [itemsChars, dumpChars, List.length_append, List.length_cons]
      simp at ih ⊢
      omega

theorem mk_data (s : String) : String.mk s.data = s := by
  cases s; rfl

theorem jsonLoads_dumps (l : List String) :
    jsonLoadsStrList (jsonDumpsStrList l) = some l := by
  cases l with
  | nil => rfl
  | cons s rest =>
    obtain ⟨ys, hys⟩ := itemsChars_head s rest
    have hlen : rest.length < ys.length + 3 := by
      have h1 := itemsChars_length_ge (s :: rest)
      rw [hys] at h1
      simp at h1
      omega
    have hp := parseTail_items rest s (ys.length + 3) hlen
    rw [hys] at hp
    unfold jsonLoadsStrList jsonDumpsStrList
    rw [hys]
    simp only [String.mk]
    have hfuel : ('[' :: ('"' :: ys ++ [']'])).length = ys.length + 3 := by
      simp
    rw [hfuel]
    simp only [List.cons_append] at hp
    have hid : (String.mk ∘ String.data) = id := funext mk_data
    simp [hp, hid]

theorem jsonDumps_ne_empty (l : List String) : jsonDumpsStrList l ≠ "" := by
  intro h
  have := congrArg String.data h
  simp [jsonDumpsStrList] at this

/-! ### Error taxonomy

`DatabaseError` is what `WickitSQLite.get_connection` raises when it catches
`sqlite3.Error` (the spec calls this the `StorageError` taxonomy case);
`jsonDecodeError` models the `json.JSONDecodeError` that `json.loads` raises
on malformed encoded list data, which no handler in `vault.py` converts. -/

inductive PyError where
  | databaseError (msg : String)
  | jsonDecodeError
deriving DecidableEq

def isStorageError : PyError → Bool
  | .databaseError _ => true
  | .jsonDecodeError => false

/-! ### Rows: the six tables of `_init_schema`, in column order -/

structure JobRow where
  id : String
  title : String
  company : String
  url : Option String
  description : Option String
  location : Option String
  salary : Option String
  requirements : Option String
  stage : String
  notes : String
  tags : Option String
  applied_date : Option String
  created_at : String
  updated_at : String
deriving DecidableEq

/-- The companies table has `last_updated` and `created_at` but no
`updated_at` column. -/
structure CompanyRow where
  id : String
  name : String
  domain : Option String
  industry : Option String
  size : Option String
  funding_stage : Option String
  rating : Option ℚ
  location : Option String
  website : Option String
  notes : String
  last_updated : String
  created_at : String
deriving DecidableEq

structure ContactRow where
  id : String
  name : String
  company : String
  position : Option String
  linkedin_url : Option String
  relationship : Option String
  connection_type : Option String
  warm_intro_potential : Option String
  last_contact : Option String
  notes : String
  created_at : String
  updated_at : String
deriving DecidableEq

structure OfferRow where
  id : String
  job_id : Option String
  company : String
  base_salary : Option Int
  bonus : String
  equity : String
  benefits : String
  start_date : Option String
  negotiation_notes : String
  status : String
  created_at : String
  updated_at : String
deriving DecidableEq

/-- `is_active` is a SQLite dynamically-typed column; the code stores the
Python value as an integer (`True` → 1, `False` → 0, `None` → NULL). -/
structure AlertRow where
  id : String
  name : String
  keywords : String
  location : String
  frequency : String
  is_active : Option Int
  last_run : Option String
  created_at : String
  updated_at : String
deriving DecidableEq

structure SessionRow where
  id : String
  company : String
  role : String
  category : String
  questions : Option String
  answers : Option String
  feedback : String
  score : Option Int
  created_at : String
  updated_at : String
deriving DecidableEq

/-- The full database state: each table as its rows in rowid (insertion)
order. -/
structure DBState where
  jobs : List JobRow := []
  companies : List CompanyRow := []
  contacts : List ContactRow := []
  offers : List OfferRow := []
  job_alerts : List AlertRow := []
  interview_sessions : List SessionRow := []
deriving DecidableEq

/-! ### Decoded records as the caller sees them

`get_job` / `get_jobs` (and the session getters) replace the JSON-text list
columns by the decoded Python lists before returning the dict. -/

structure JobRecord where
  id : String
  title : String
  company : String
  url : Option String
  description : Option String
  location : Option String
  salary : Option String
  requirements : List String
  stage : String
  notes : String
  tags : List String
  applied_date : Option String
  created_at : String
  updated_at : String
deriving DecidableEq

structure SessionRecord where
  id : String
  company : String
  role : String
  category : String
  questions : List String
  answers : List String
  feedback : String
  score : Option Int
  created_at : String
  updated_at : String
deriving DecidableEq

/-- `json.loads(row[col] or "[]")`: a NULL or empty-string column falls back
to the empty-list encoding (Python truthiness of the `or`). -/
def loadsListField (v : Option String) : Option (List String) :=
  jsonLoadsStrList (match v with
    | none => "[]"
    | some s => if s = "" then "[]" else s)

def decodeJobRow (r : JobRow) : Option JobRecord :=
  match loadsListField r.requirements, loadsListField r.tags with
  | some rq, some tg =>
      some { id := r.id, title := r.title, company := r.company, url := r.url,
             description := r.description, location := r.location,
             salary := r.salary, requirements := rq, stage := r.stage,
             notes := r.notes, tags := tg, applied_date := r.applied_date,
             created_at := r.created_at, updated_at := r.updated_at }
  | _, _ => none

/-! ### The connection boundary (`WickitSQLite.get_connection`)

An action against the engine either succeeds with a value and a next state or
fails with an `sqlite3.Error` message.  The context manager converts any
engine failure into `DatabaseError("Database error: {e}")` after
`conn.rollback()`, i.e. the caller sees the original state. -/

def get_connection {α : Type} (s : DBState)
    (act : DBState → Except String (α × DBState)) :
    Except PyError α × DBState :=
  match act s with
  | .ok (a, s') => (.ok a, s')
  | .error e => (.error (.databaseError ("Database error: " ++ e)), s)

def decodeSessionRow (r : SessionRow) : Option SessionRecord :=
  match loadsListField r.questions, loadsListField r.answers with
  | some qs, some ans =>
      some { id := r.id, company := r.company, role := r.role,
             category := r.category, questions := qs, answers := ans,
             feedback := r.feedback, score := r.score,
             created_at := r.created_at, updated_at := r.updated_at }
  | _, _ => none

/-! ### Job operations (`create_job` … `delete_job`) -/

/-- Caller-supplied `job_data`: `none` models an omitted key
(`job_data.get(k, default)` then fills the documented default). -/
structure JobFields where
  title : Option String := none
  company : Option String := none
  url : Option String := none
  description : Option String := none
  location : Option String := none
  salary : Option String := none
  requirements : Option (List String) := none
  stage : Option String := none
  notes : Option String := none
  tags : Option (List String) := none
  applied_date : Option String := none
deriving DecidableEq

/-- `get_job`: `SELECT * FROM jobs WHERE id = ?`, `None` when no row matches,
otherwise the first row with its two JSON columns decoded (a decode failure
propagates as the raw `json` exception). -/
def get_job (s : DBState) (job_id : String) :
    Except PyError (Option JobRecord) :=
  match s.jobs.filter (fun r => r.id = job_id) with
  | [] => .ok none
  | r :: _ =>
    match decodeJobRow r with
    | none => .error .jsonDecodeError
    | some jr => .ok (some jr)

/-- The `record` dict that `create_job` builds: documented defaults filled,
`requirements`/`tags` JSON-encoded, both timestamps stamped to `now`. -/
def jobRowOf (f : JobFields) (job_id now : String) : JobRow :=
  { id := job_id, title := f.title.getD "", company := f.company.getD "",
    url := f.url, description := f.description, location := f.location,
    salary := f.salary,
    requirements := some (jsonDumpsStrList (f.requirements.getD [])),
    stage := f.stage.getD "saved", notes := f.notes.getD "",
    tags := some (jsonDumpsStrList (f.tags.getD [])),
    applied_date := f.applied_date, created_at := now, updated_at := now }

/-- `create_job`: builds the record with documented defaults, encodes
`requirements`/`tags`, INSERTs (the PRIMARY KEY rejects a duplicate id), and
returns `self.get_job(job_id)`. -/
def create_job (s : DBState) (f : JobFields) (job_id now : String) :
    Except PyError (Option JobRecord) × DBState :=
  if ∃ r ∈ s.jobs, r.id = job_id then
    (.error (.databaseError "Database error: UNIQUE constraint failed: jobs.id"), s)
  else
    let s' := { s with jobs := s.jobs ++ [jobRowOf f job_id now] }
    (get_job s' job_id, s')

/-- `ORDER BY created_at DESC` on the jobs table. -/
def jobsDesc (a b : JobRow) : Prop := b.created_at ≤ a.created_at

instance : DecidableRel jobsDesc := fun a b =>
  inferInstanceAs (Decidable (b.created_at ≤ a.created_at))

instance : IsTotal JobRow jobsDesc := ⟨fun a b => le_total b.created_at a.created_at⟩

instance : IsTrans JobRow jobsDesc := ⟨fun _ _ _ h1 h2 => le_trans h2 h1⟩

def decodeJobRows : List JobRow → Except PyError (List JobRecord)
  | [] => .ok []
  | r :: rs =>
    match decodeJobRow r with
    | none => .error .jsonDecodeError
    | some jr => (decodeJobRows rs).map (jr :: ·)

/-- `get_jobs`: all rows, `ORDER BY created_at DESC`, JSON fields decoded. -/
def get_jobs (s : DBState) : Except PyError (List JobRecord) :=
  decodeJobRows (List.insertionSort jobsDesc s.jobs)

/-- Caller-supplied partial update for `update_job`.  Any present key
(except `id`) is written; list fields are re-encoded, a `None` list being
coerced to `[]` by the `value or []` expression. -/
structure JobUpdate where
  title : Option String := none
  company : Option String := none
  url : Option String := none
  description : Option String := none
  location : Option String := none
  salary : Option String := none
  requirements : Option (List String) := none
  stage : Option String := none
  notes : Option String := none
  tags : Option (List String) := none
  applied_date : Option String := none
  created_at : Option String := none
  updated_at : Option String := none
deriving DecidableEq

/-- The SET clause of `update_job` applied to one row: every present field
overwrites its column; `updated_at` was already forced to `now` by
`job_data["updated_at"] = datetime.now().isoformat()` before the loop, so a
caller-supplied `updated_at` is ignored. -/
def applyJobUpdate (u : JobUpdate) (now : String) (r : JobRow) : JobRow :=
  { id := r.id,
    title := u.title.getD r.title,
    company := u.company.getD r.company,
    url := match u.url with | none => r.url | some v => some v,
    description := match u.description with | none => r.description | some v => some v,
    location := match u.location with | none => r.location | some v => some v,
    salary := match u.salary with | none => r.salary | some v => some v,
    requirements := match u.requirements with
      | none => r.requirements
      | some l => some (jsonDumpsStrList l),
    stage := u.stage.getD r.stage,
    notes := u.notes.getD r.notes,
    tags := match u.tags with
      | none => r.tags
      | some l => some (jsonDumpsStrList l),
    applied_date := match u.applied_date with
      | none => r.applied_date
      | some v => some v,
    created_at := u.created_at.getD r.created_at,
    updated_at := now }

/-- `update_job`: `UPDATE jobs SET … WHERE id = ?`; if no row matched return
`None`, else return `self.get_job(job_id)`. -/
def update_job (s : DBState) (job_id : String) (u : JobUpdate) (now : String) :
    Except PyError (Option JobRecord) × DBState :=
  let matched := (s.jobs.filter (fun r => r.id = job_id)).length
  let jobs' := s.jobs.map (fun r => if r.id = job_id then applyJobUpdate u now r else r)
  let s' := { s with jobs := jobs' }
  if matched > 0 then (get_job s' job_id, s') else (.ok none, s')

/-- `delete_job`: `DELETE FROM jobs WHERE id = ?`; returns
`rows_affected > 0`. -/
def delete_job (s : DBState) (job_id : String) : Bool × DBState :=
  let matched := (s.jobs.filter (fun r => r.id = job_id)).length
  (matched > 0, { s with jobs := s.jobs.filter (fun r => ¬ r.id = job_id) })

/-! ### Company operations (`create_company` … `get_company`) -/

structure CompanyFields where
  name : Option String := none
  domain : Option String := none
  industry : Option String := none
  size : Option String := none
  funding_stage : Option String := none
  rating : Option ℚ := none
  location : Option String := none
  website : Option String := none
  notes : Option String := none
deriving DecidableEq

/-- `get_company`: `SELECT * FROM companies WHERE id = ?`; the raw row (no
JSON columns) or `None`. -/
def get_company (s : DBState) (company_id : String) : Option CompanyRow :=
  match s.companies.filter (fun r => r.id = company_id) with
  | [] => none
  | r :: _ => some r

/-- The `record` dict that `create_company` builds: `last_updated` and
`created_at` both set to `datetime.now().isoformat()`. -/
def companyRowOf (f : CompanyFields) (company_id now : String) : CompanyRow :=
  { id := company_id, name := f.name.getD "", domain := f.domain,
    industry := f.industry, size := f.size,
    funding_stage := f.funding_stage, rating := f.rating,
    location := f.location, website := f.website,
    notes := f.notes.getD "", last_updated := now, created_at := now }

/-- `create_company`: the record sets `last_updated` and `created_at` to the
same `datetime.now().isoformat()`; there is no `updated_at` column. -/
def create_company (s : DBState) (f : CompanyFields) (company_id now : String) :
    Except PyError (Option CompanyRow) × DBState :=
  if ∃ r ∈ s.companies, r.id = company_id then
    (.error (.databaseError "Database error: UNIQUE constraint failed: companies.id"), s)
  else
    let s' := { s with companies := s.companies ++ [companyRowOf f company_id now] }
    (.ok (get_company s' company_id), s')

/-- `ORDER BY name ASC` on the companies table. -/
def companiesAsc (a b : CompanyRow) : Prop := a.name ≤ b.name

instance : DecidableRel companiesAsc := fun a b =>
  inferInstanceAs (Decidable (a.name ≤ b.name))

instance : IsTotal CompanyRow companiesAsc := ⟨fun a b => le_total a.name b.name⟩

instance : IsTrans CompanyRow companiesAsc := ⟨fun _ _ _ h1 h2 => le_trans h1 h2⟩

/-- `get_companies`: `SELECT * FROM companies ORDER BY name ASC`. -/
def get_companies (s : DBState) : List CompanyRow :=
  List.insertionSort companiesAsc s.companies

/-! ### Contact operations (`create_contact` … `delete_contact`) -/

structure ContactFields where
  name : Option String := none
  company : Option String := none
  position : Option String := none
  linkedin_url : Option String := none
  relationship : Option String := none
  connection_type : Option String := none
  warm_intro_potential : Option String := none
  last_contact : Option String := none
  notes : Option String := none
deriving DecidableEq

def get_contact (s : DBState) (contact_id : String) : Option ContactRow :=
  match s.contacts.filter (fun r => r.id = contact_id) with
  | [] => none
  | r :: _ => some r

/-- The row a `create_contact` INSERT produces: the named columns from the
`record` dict plus the engine-filled `DEFAULT CURRENT_TIMESTAMP` columns. -/
def contactRowOf (f : ContactFields) (contact_id engineNow : String) : ContactRow :=
  { id := contact_id, name := f.name.getD "", company := f.company.getD "",
    position := f.position, linkedin_url := f.linkedin_url,
    relationship := f.relationship, connection_type := f.connection_type,
    warm_intro_potential := f.warm_intro_potential,
    last_contact := f.last_contact, notes := f.notes.getD "",
    created_at := engineNow, updated_at := engineNow }

/-- `create_contact`: the INSERT names no timestamp columns, so the engine
fills `created_at` and `updated_at` from their `DEFAULT CURRENT_TIMESTAMP`
(`engineNow`). -/
def create_contact (s : DBState) (f : ContactFields)
    (contact_id engineNow : String) :
    Except PyError (Option ContactRow) × DBState :=
  if ∃ r ∈ s.contacts, r.id = contact_id then
    (.error (.databaseError "Database error: UNIQUE constraint failed: contacts.id"), s)
  else
    let s' := { s with contacts := s.contacts ++ [contactRowOf f contact_id engineNow] }
    (.ok (get_contact s' contact_id), s')

/-- `ORDER BY name ASC` on the contacts table. -/
def contactsAsc (a b : ContactRow) : Prop := a.name ≤ b.name

instance : DecidableRel contactsAsc := fun a b =>
  inferInstanceAs (Decidable (a.name ≤ b.name))

instance : IsTotal ContactRow contactsAsc := ⟨fun a b => le_total a.name b.name⟩

instance : IsTrans ContactRow contactsAsc := ⟨fun _ _ _ h1 h2 => le_trans h1 h2⟩

/-- `get_contacts`: `SELECT * FROM contacts ORDER BY name ASC`. -/
def get_contacts (s : DBState) : List ContactRow :=
  List.insertionSort contactsAsc s.contacts

/-- `delete_contact`: `DELETE FROM contacts WHERE id = ?`; returns
`rows_affected > 0`. -/
def delete_contact (s : DBState) (contact_id : String) : Bool × DBState :=
  let matched := (s.contacts.filter (fun r => r.id = contact_id)).length
  (matched > 0,
    { s with contacts := s.contacts.filter (fun r => ¬ r.id = contact_id) })

/-! ### Offer operations (`create_offer` … `calculate_offer_value`) -/

structure OfferFields where
  job_id : Option String := none
  company : Option String := none
  base_salary : Option Int := none
  bonus : Option String := none
  equity : Option String := none
  benefits : Option String := none
  start_date : Option String := none
  negotiation_notes : Option String := none
  status : Option String := none
deriving DecidableEq

def get_offer (s : DBState) (offer_id : String) : Option OfferRow :=
  match s.offers.filter (fun r => r.id = offer_id) with
  | [] => none
  | r :: _ => some r

/-- The row a `create_offer` INSERT produces: the named columns from the
`record` dict plus the engine-filled `DEFAULT CURRENT_TIMESTAMP` columns. -/
def offerRowOf (f : OfferFields) (offer_id engineNow : String) : OfferRow :=
  { id := offer_id, job_id := f.job_id, company := f.company.getD "",
    base_salary := f.base_salary, bonus := f.bonus.getD "",
    equity := f.equity.getD "", benefits := f.benefits.getD "",
    start_date := f.start_date,
    negotiation_notes := f.negotiation_notes.getD "",
    status := f.status.getD "pending",
    created_at := engineNow, updated_at := engineNow }

/-- `create_offer`: the INSERT names no timestamp columns, so the engine
fills `created_at` and `updated_at` from `DEFAULT CURRENT_TIMESTAMP`. -/
def create_offer (s : DBState) (f : OfferFields) (offer_id engineNow : String) :
    Except PyError (Option OfferRow) × DBState :=
  if ∃ r ∈ s.offers, r.id = offer_id then
    (.error (.databaseError "Database error: UNIQUE constraint failed: offers.id"), s)
  else
    let s' := { s with offers := s.offers ++ [offerRowOf f offer_id engineNow] }
    (.ok (get_offer s' offer_id), s')

/-- The bundle returned by `calculate_offer_value`.  `base_salary` is the
Python int after the `or 0` coercion; the product with the float literal
`1.2` is modelled exactly (at the inputs of interest the IEEE product is
exact as well). -/
structure OfferValueBundle where
  offer_id : String
  base_salary : Int
  estimated_total_value : ℚ
  calculation_note : String
deriving DecidableEq

/-- `calculate_offer_value`: raises `DatabaseError("Offer not found")` when
`get_offer` returns `None`; otherwise `base_salary = offer.get("base_salary", 0) or 0`
and `total_value = base_salary * 1.2`. -/
def calculate_offer_value (s : DBState) (offer_id : String) :
    Except PyError OfferValueBundle :=
  match get_offer s offer_id with
  | none => .error (.databaseError "Offer not found")
  | some offer =>
    let base_salary : Int := (offer.base_salary).getD 0
    let total_value : ℚ := (base_salary : ℚ) * (1.2 : ℚ)
    .ok { offer_id := offer_id, base_salary := base_salary,
          estimated_total_value := total_value,
          calculation_note := "Estimated total value including benefits" }

/-! ### Job alert operations (`create_job_alert` … `run_job_alert`) -/

/-- `alert_data`: an absent `is_active` defaults to `True` (stored 1); a
present value is stored as the SQLite integer the Python value binds to
(`None` → NULL). -/
structure AlertFields where
  name : Option String := none
  keywords : Option String := none
  location : Option String := none
  frequency : Option String := none
  is_active : Option (Option Int) := none
  last_run : Option String := none
deriving DecidableEq

def get_job_alert (s : DBState) (alert_id : String) : Option AlertRow :=
  match s.job_alerts.filter (fun r => r.id = alert_id) with
  | [] => none
  | r :: _ => some r

/-- The `record` dict that `create_job_alert` builds. -/
def alertRowOf (f : AlertFields) (alert_id now : String) : AlertRow :=
  { id := alert_id, name := f.name.getD "", keywords := f.keywords.getD "",
    location := f.location.getD "", frequency := f.frequency.getD "daily",
    is_active := f.is_active.getD (some 1), last_run := f.last_run,
    created_at := now, updated_at := now }

def create_job_alert (s : DBState) (f : AlertFields) (alert_id now : String) :
    Except PyError (Option AlertRow) × DBState :=
  if ∃ r ∈ s.job_alerts, r.id = alert_id then
    (.error (.databaseError "Database error: UNIQUE constraint failed: job_alerts.id"), s)
  else
    let s' := { s with job_alerts := s.job_alerts ++ [alertRowOf f alert_id now] }
    (.ok (get_job_alert s' alert_id), s')

/-- `ORDER BY created_at DESC` on the job_alerts table. -/
def alertsDesc (a b : AlertRow) : Prop := b.created_at ≤ a.created_at

instance : DecidableRel alertsDesc := fun a b =>
  inferInstanceAs (Decidable (b.created_at ≤ a.created_at))

instance : IsTotal AlertRow alertsDesc := ⟨fun a b => le_total b.created_at a.created_at⟩

instance : IsTrans AlertRow alertsDesc := ⟨fun _ _ _ h1 h2 => le_trans h2 h1⟩

/-- `get_job_alerts`: `SELECT * FROM job_alerts ORDER BY created_at DESC`. -/
def get_job_alerts (s : DBState) : List AlertRow :=
  List.insertionSort alertsDesc s.job_alerts

/-- SQLite `NOT` on the stored `is_active` value: NULL stays NULL, zero
becomes 1, any other number becomes 0. -/
def sqliteNot : Option Int → Option Int
  | none => none
  | some i => some (if i = 0 then 1 else 0)

/-- `toggle_job_alert`: `UPDATE job_alerts SET is_active = NOT is_active,
updated_at = ? WHERE id = ?`, then `return self.get_job_alert(alert_id)`. -/
def toggle_job_alert (s : DBState) (alert_id now : String) :
    Option AlertRow × DBState :=
  let alerts' := s.job_alerts.map (fun r =>
    if r.id = alert_id then
      { r with is_active := sqliteNot r.is_active, updated_at := now }
    else r)
  let s' := { s with job_alerts := alerts' }
  (get_job_alert s' alert_id, s')

/-- The result bundle of `run_job_alert`.  `jobs_found` is the literal empty
list (`# Would integrate with job search APIs`). -/
structure AlertRunResult where
  alert : Option AlertRow
  jobs_found : List JobRecord
  message : String
deriving DecidableEq

/-- `run_job_alert`: stamps `last_run` and `updated_at` (two separate
`datetime.now()` calls), then returns the bundle; an unknown id simply
updates zero rows and yields `alert = None`. -/
def run_job_alert (s : DBState) (alert_id now1 now2 : String) :
    AlertRunResult × DBState :=
  let alerts' := s.job_alerts.map (fun r =>
    if r.id = alert_id then { r with last_run := some now1, updated_at := now2 }
    else r)
  let s' := { s with job_alerts := alerts' }
  ({ alert := get_job_alert s' alert_id, jobs_found := [],
     message := "Job alert executed (demo mode)" }, s')

/-! ### Interview session operations -/

structure SessionFields where
  company : Option String := none
  role : Option String := none
  category : Option String := none
  questions : Option (List String) := none
  answers : Option (List String) := none
  feedback : Option String := none
  score : Option Int := none
deriving DecidableEq

def get_interview_session (s : DBState) (session_id : String) :
    Except PyError (Option SessionRecord) :=
  match s.interview_sessions.filter (fun r => r.id = session_id) with
  | [] => .ok none
  | r :: _ =>
    match decodeSessionRow r with
    | none => .error .jsonDecodeError
    | some sr => .ok (some sr)

/-- The `record` dict that `create_interview_session` builds. -/
def sessionRowOf (f : SessionFields) (session_id now : String) : SessionRow :=
  { id := session_id, company := f.company.getD "", role := f.role.getD "",
    category := f.category.getD "behavioral",
    questions := some (jsonDumpsStrList (f.questions.getD [])),
    answers := some (jsonDumpsStrList (f.answers.getD [])),
    feedback := f.feedback.getD "", score := f.score,
    created_at := now, updated_at := now }

def create_interview_session (s : DBState) (f : SessionFields)
    (session_id now : String) :
    Except PyError (Option SessionRecord) × DBState :=
  if ∃ r ∈ s.interview_sessions, r.id = session_id then
    (.error (.databaseError "Database error: UNIQUE constraint failed: interview_sessions.id"), s)
  else
    let rows' := s.interview_sessions ++ [sessionRowOf f session_id now]
    let s' := { s with interview_sessions := rows' }
    (get_interview_session s' session_id, s')

/-- `ORDER BY created_at DESC` on the interview_sessions table. -/
def sessionsDesc (a b : SessionRow) : Prop := b.created_at ≤ a.created_at

instance : DecidableRel sessionsDesc := fun a b =>
  inferInstanceAs (Decidable (b.created_at ≤ a.created_at))

instance : IsTotal SessionRow sessionsDesc := ⟨fun a b => le_total b.created_at a.created_at⟩

instance : IsTrans SessionRow sessionsDesc := ⟨fun _ _ _ h1 h2 => le_trans h2 h1⟩

def decodeSessionRows : List SessionRow → Except PyError (List SessionRecord)
  | [] => .ok []
  | r :: rs =>
    match decodeSessionRow r with
    | none => .error .jsonDecodeError
    | some sr => (decodeSessionRows rs).map (sr :: ·)

/-- `get_interview_sessions`: all rows `ORDER BY created_at DESC`, JSON
fields decoded. -/
def get_interview_sessions (s : DBState) :
    Except PyError (List SessionRecord) :=
  decodeSessionRows (List.insertionSort sessionsDesc s.interview_sessions)

/-! ### Column lists from `_init_schema`

`SELECT *` rows come back as dicts keyed by exactly the table's columns, in
schema order; these lists record that shape. -/

def jobsColumns : List String :=
  ["id", "title", "company", "url", "description", "location", "salary",
   "requirements", "stage", "notes", "tags", "applied_date",
   "created_at", "updated_at"]

def companiesColumns : List String :=
  ["id", "name", "domain", "industry", "size", "funding_stage", "rating",
   "location", "website", "notes", "last_updated", "created_at"]

def contactsColumns : List String :=
  ["id", "name", "company", "position", "linkedin_url", "relationship",
   "connection_type", "warm_intro_potential", "last_contact", "notes",
   "created_at", "updated_at"]

def offersColumns : List String :=
  ["id", "job_id", "company", "base_salary", "bonus", "equity", "benefits",
   "start_date", "negotiation_notes", "status", "created_at", "updated_at"]

def jobAlertsColumns : List String :=
  ["id", "name", "keywords", "location", "frequency", "is_active",
   "last_run", "created_at", "updated_at"]

def interviewSessionsColumns : List String :=
  ["id", "company", "role", "category", "questions", "answers", "feedback",
   "score", "created_at", "updated_at"]

/-! ### Helper lemmas -/

theorem loadsListField_dumps (l : List String) :
    loadsListField (some (jsonDumpsStrList l)) = some l := by
  unfold loadsListField
  dsimp only
  rw [if_neg (jsonDumps_ne_empty l)]
  exact jsonLoads_dumps l

theorem filter_append_fresh {α : Type} (p : α → Bool) (l : List α) (x : α)
    (h : ∀ a ∈ l, p a = false) (hx : p x = true) :
    (l ++ [x]).filter p = [x] := by
  rw [List.filter_append]
  rw [List.filter_eq_nil_iff.2 (fun a ha => by simp [h a ha])]
  simp [hx]

/-- The decoded record the caller receives back from `create_job`:
`jobRowOf` with the two JSON columns decoded back to the supplied lists. -/
def jobRecordOf (f : JobFields) (job_id now : String) : JobRecord :=
  { id := job_id, title := f.title.getD "", company := f.company.getD "",
    url := f.url, description := f.description, location := f.location,
    salary := f.salary, requirements := f.requirements.getD [],
    stage := f.stage.getD "saved", notes := f.notes.getD "",
    tags := f.tags.getD [], applied_date := f.applied_date,
    created_at := now, updated_at := now }

/-- The decoded record the caller receives back from
`create_interview_session`. -/
def sessionRecordOf (f : SessionFields) (session_id now : String) :
    SessionRecord :=
  { id := session_id, company := f.company.getD "", role := f.role.getD "",
    category := f.category.getD "behavioral",
    questions := f.questions.getD [], answers := f.answers.getD [],
    feedback := f.feedback.getD "", score := f.score,
    created_at := now, updated_at := now }

theorem decodeJobRow_rowOf (f : JobFields) (i now : String) :
    decodeJobRow (jobRowOf f i now) = some (jobRecordOf f i now) := by
  unfold decodeJobRow jobRowOf jobRecordOf
  simp [loadsListField_dumps]

theorem decodeSessionRow_rowOf (f : SessionFields) (i now : String) :
    decodeSessionRow (sessionRowOf f i now) = some (sessionRecordOf f i now) := by
  unfold decodeSessionRow sessionRowOf sessionRecordOf
  simp [loadsListField_dumps]

instance {ε α : Type} [DecidableEq ε] [DecidableEq α] : DecidableEq (Except ε α)
  | .error a, .error b =>
    if h : a = b then .isTrue (by rw [h])
    else .isFalse (fun hc => h (Except.error.inj hc))
  | .error _, .ok _ => .isFalse (fun hc => Except.noConfusion hc)
  | .ok _, .error _ => .isFalse (fun hc => Except.noConfusion hc)
  | .ok a, .ok b =>
    if h : a = b then .isTrue (by rw [h])
    else .isFalse (fun hc => h (Except.ok.inj hc))

theorem filter_map_comm {α : Type} (rows : List α) (f : α → α) (p : α → Bool)
    (hf : ∀ r, p (f r) = p r) :
    (rows.map f).filter p = (rows.filter p).map f := by
  induction rows with
  | nil => rfl
  | cons r rs ih =>
    by_cases hp : p r = true
    · simp [List.filter_cons, hf, hp, ih]
    · simp only [Bool.not_eq_true] at hp
      simp [List.filter_cons, hf, hp, ih]

theorem create_job_eq (s : DBState) (f : JobFields) (i now : String)
    (h : ∀ r ∈ s.jobs, r.id ≠ i) :
    create_job s f i now =
      (.ok (some (jobRecordOf f i now)),
       { s with jobs := s.jobs ++ [jobRowOf f i now] }) := by
  unfold create_job
  rw [if_neg (by rintro ⟨r, hr, hid⟩; exact h r hr hid)]
  unfold get_job
  dsimp only
  rw [filter_append_fresh _ _ _ (fun a ha => by simp [h a ha]) (by simp [jobRowOf])]
  simp [decodeJobRow_rowOf]

theorem create_company_eq (s : DBState) (f : CompanyFields) (i now : String)
    (h : ∀ r ∈ s.companies, r.id ≠ i) :
    create_company s f i now =
      (.ok (some (companyRowOf f i now)),
       { s with companies := s.companies ++ [companyRowOf f i now] }) := by
  unfold create_company
  rw [if_neg (by rintro ⟨r, hr, hid⟩; exact h r hr hid)]
  unfold get_company
  dsimp only
  rw [filter_append_fresh _ _ _ (fun a ha => by simp [h a ha]) (by simp [companyRowOf])]

theorem create_contact_eq (s : DBState) (f : ContactFields) (i now : String)
    (h : ∀ r ∈ s.contacts, r.id ≠ i) :
    create_contact s f i now =
      (.ok (some (contactRowOf f i now)),
       { s with contacts := s.contacts ++ [contactRowOf f i now] }) := by
  unfold create_contact
  rw [if_neg (by rintro ⟨r, hr, hid⟩; exact h r hr hid)]
  unfold get_contact
  dsimp only
  rw [filter_append_fresh _ _ _ (fun a ha => by simp [h a ha]) (by simp [contactRowOf])]

theorem create_offer_eq (s : DBState) (f : OfferFields) (i now : String)
    (h : ∀ r ∈ s.offers, r.id ≠ i) :
    create_offer s f i now =
      (.ok (some (offerRowOf f i now)),
       { s with offers := s.offers ++ [offerRowOf f i now] }) := by
  unfold create_offer
  rw [if_neg (by rintro ⟨r, hr, hid⟩; exact h r hr hid)]
  unfold get_offer
  dsimp only
  rw [filter_append_fresh _ _ _ (fun a ha => by simp [h a ha]) (by simp [offerRowOf])]

theorem create_job_alert_eq (s : DBState) (f : AlertFields) (i now : String)
    (h : ∀ r ∈ s.job_alerts, r.id ≠ i) :
    create_job_alert s f i now =
      (.ok (some (alertRowOf f i now)),
       { s with job_alerts := s.job_alerts ++ [alertRowOf f i now] }) := by
  unfold create_job_alert
  rw [if_neg (by rintro ⟨r, hr, hid⟩; exact h r hr hid)]
  unfold get_job_alert
  dsimp only
  rw [filter_append_fresh _ _ _ (fun a ha => by simp [h a ha]) (by simp [alertRowOf])]

theorem create_session_eq (s : DBState) (f : SessionFields) (i now : String)
    (h : ∀ r ∈ s.interview_sessions, r.id ≠ i) :
    create_interview_session s f i now =
      (.ok (some (sessionRecordOf f i now)),
       { s with interview_sessions := s.interview_sessions ++ [sessionRowOf f i now] }) := by
  unfold create_interview_session
  rw [if_neg (by rintro ⟨r, hr, hid⟩; exact h r hr hid)]
  unfold get_interview_session
  dsimp only
  rw [filter_append_fresh _ _ _ (fun a ha => by simp [h a ha]) (by simp [sessionRowOf])]
  simp [decodeSessionRow_rowOf]

theorem applyJobUpdate_id (u : JobUpdate) (now : String) (r : JobRow) :
    (applyJobUpdate u now r).id = r.id := rfl

theorem applyJobUpdate_updated_at (u : JobUpdate) (now : String) (r : JobRow) :
    (applyJobUpdate u now r).updated_at = now := rfl

theorem applyJobUpdate_created_at (u : JobUpdate) (now : String) (r : JobRow)
    (h : u.created_at = none) :
    (applyJobUpdate u now r).created_at = r.created_at := by
  unfold applyJobUpdate
  rw [h]
  rfl

theorem decodeJobRow_proj (r : JobRow) (jr : JobRecord)
    (h : decodeJobRow r = some jr) :
    jr.id = r.id ∧ jr.created_at = r.created_at ∧ jr.updated_at = r.updated_at := by
  unfold decodeJobRow at h
  rcases hr1 : loadsListField r.requirements with _ | rq <;> rw [hr1] at h
  · simp at h
  · rcases hr2 : loadsListField r.tags with _ | tg <;> rw [hr2] at h
    · simp at h
    · simp only [Option.some.injEq] at h
      subst h
      exact ⟨rfl, rfl, rfl⟩

/-- What a successful `update_job` returned record comes from: some stored
row with the requested id, updated and re-decoded. -/
theorem update_job_ok (s : DBState) (i : String) (u : JobUpdate) (now : String)
    (jr : JobRecord) (h : (update_job s i u now).1 = .ok (some jr)) :
    ∃ r ∈ s.jobs, r.id = i ∧ decodeJobRow (applyJobUpdate u now r) = some jr := by
  unfold update_job at h
  dsimp only at h
  by_cases hm : (s.jobs.filter (fun r => r.id = i)).length > 0
  · rw [if_pos hm] at h
    unfold get_job at h
    dsimp only at h
    rw [filter_map_comm _ _ _ (fun r => by
      by_cases hr : r.id = i <;> simp [hr, applyJobUpdate_id])] at h
    cases hfil : s.jobs.filter (fun r => r.id = i) with
    | nil => rw [hfil] at h; simp at h
    | cons r0 rest =>
      rw [hfil] at h
      have hr0 : r0 ∈ s.jobs.filter (fun r => r.id = i) := by
        rw [hfil]; exact List.mem_cons_self r0 rest
      have hr0m := List.mem_filter.1 hr0
      have hr0i : r0.id = i := by simpa using hr0m.2
      refine ⟨r0, hr0m.1, hr0i, ?_⟩
      simp only [List.map_cons, hr0i, if_pos, ite_true] at h
      rcases hd : decodeJobRow (applyJobUpdate u now r0) with _ | jr0 <;>
        rw [hd] at h
      · simp at h
      · simp only [Except.ok.injEq, Option.some.injEq] at h
        exact congrArg some h
  · rw [if_neg hm] at h
    simp at h

/-- The state after `update_job`: each row with the requested id rewritten by
the SET clause, every other row untouched. -/
theorem update_job_state (s : DBState) (i : String) (u : JobUpdate)
    (now : String) :
    (update_job s i u now).2.jobs =
      s.jobs.map (fun r => if r.id = i then applyJobUpdate u now r else r) := by
  unfold update_job
  dsimp only
  by_cases hm : (s.jobs.filter (fun r => r.id = i)).length > 0 <;>
    simp [hm]

theorem decodeJobRows_maps (rs : List JobRow) (l : List JobRecord)
    (h : decodeJobRows rs = .ok l) :
    l.map (fun r => r.created_at) = rs.map (fun r => r.created_at)
    ∧ l.map (fun r => r.id) = rs.map (fun r => r.id) := by
  induction rs generalizing l with
  | nil =>
    unfold decodeJobRows at h
    simp only [Except.ok.injEq] at h
    subst h
    exact ⟨rfl, rfl⟩
  | cons r rs ih =>
    unfold decodeJobRows at h
    rcases hd : decodeJobRow r with _ | jr <;> rw [hd] at h
    · simp at h
    · rcases hrest : decodeJobRows rs with e | l2 <;> rw [hrest] at h
      · simp [Except.map] at h
      · simp only [Except.map, Except.ok.injEq] at h
        subst h
        have hproj := decodeJobRow_proj r jr hd
        have hih := ih l2 hrest
        simp [hproj.1, hproj.2.1, hih.1, hih.2]

theorem decodeSessionRow_proj (r : SessionRow) (sr : SessionRecord)
    (h : decodeSessionRow r = some sr) :
    sr.id = r.id ∧ sr.created_at = r.created_at := by
  unfold decodeSessionRow at h
  rcases hr1 : loadsListField r.questions with _ | qs <;> rw [hr1] at h
  · simp at h
  · rcases hr2 : loadsListField r.answers with _ | ans <;> rw [hr2] at h
    · simp at h
    · simp only [Option.some.injEq] at h
      subst h
      exact ⟨rfl, rfl⟩

theorem decodeSessionRows_maps (rs : List SessionRow) (l : List SessionRecord)
    (h : decodeSessionRows rs = .ok l) :
    l.map (fun r => r.created_at) = rs.map (fun r => r.created_at)
    ∧ l.map (fun r => r.id) = rs.map (fun r => r.id) := by
  induction rs generalizing l with
  | nil =>
    unfold decodeSessionRows at h
    simp only [Except.ok.injEq] at h
    subst h
    exact ⟨rfl, rfl⟩
  | cons r rs ih =>
    unfold decodeSessionRows at h
    rcases hd : decodeSessionRow r with _ | sr <;> rw [hd] at h
    · simp at h
    · rcases hrest : decodeSessionRows rs with e | l2 <;> rw [hrest] at h
      · simp [Except.map] at h
      · simp only [Except.map, Except.ok.injEq] at h
        subst h
        have hproj := decodeSessionRow_proj r sr hd
        have hih := ih l2 hrest
        simp [hproj.1, hproj.2, hih.1, hih.2]

/-! ## Claims -/

/-- C8: for every id, `delete(id)` removes the row and returns `true` exactly
when a row with that id existed; on an unknown or already-deleted id it
returns `false` (as a total function it never raises).  Covers the two
entities exposing delete: Job and Contact. -/
theorem delete_existence_signal (s : DBState) (i : String) :
    ((delete_job s i).1 = true ↔ ∃ r ∈ s.jobs, r.id = i)
    ∧ (delete_job s i).2.jobs = s.jobs.filter (fun r => ¬ r.id = i)
    ∧ (delete_job (delete_job s i).2 i).1 = false
    ∧ ((delete_contact s i).1 = true ↔ ∃ r ∈ s.contacts, r.id = i)
    ∧ (delete_contact s i).2.contacts = s.contacts.filter (fun r => ¬ r.id = i)
    ∧ (delete_contact (delete_contact s i).2 i).1 = false := by
  unfold delete_job delete_contact
  refine ⟨?_, rfl, ?_, ?_, rfl, ?_⟩
  · simp [List.length_pos, List.filter_eq_nil_iff]
  · dsimp only
    rw [List.filter_filter]
    simp
  · simp [List.length_pos, List.filter_eq_nil_iff]
  · dsimp only
    rw [List.filter_filter]
    simp

/-- C10: `run_job_alert` is total: for every call (existing id or not) the
bundle has `jobs_found = []` and the fixed demo-mode message, and on an
unknown id the `alert` component is `None` — no exception, no NotFound
signal. -/
theorem run_job_alert_total (s : DBState) (i now1 now2 : String) :
    (run_job_alert s i now1 now2).1.jobs_found = []
    ∧ (run_job_alert s i now1 now2).1.message = "Job alert executed (demo mode)"
    ∧ ((∀ r ∈ s.job_alerts, r.id ≠ i) →
        (run_job_alert s i now1 now2).1.alert = none) := by
  refine ⟨rfl, rfl, fun h => ?_⟩
  unfold run_job_alert get_job_alert
  dsimp only
  rw [filter_map_comm _ _ _ (fun r => by by_cases hr : r.id = i <;> simp [hr])]
  rw [List.filter_eq_nil_iff.2 (fun r hr => by simp [h r hr])]
  rfl

/-- Witness for C10 at a concrete empty store. -/
theorem run_job_alert_total_witness :
    (run_job_alert {} "a1" "t1" "t2").1.jobs_found = []
    ∧ (run_job_alert {} "a1" "t1" "t2").1.message = "Job alert executed (demo mode)"
    ∧ (run_job_alert {} "a1" "t1" "t2").1.alert = none :=
  ⟨(run_job_alert_total {} "a1" "t1" "t2").1,
   (run_job_alert_total {} "a1" "t1" "t2").2.1,
   (run_job_alert_total {} "a1" "t1" "t2").2.2 (by simp)⟩

/-- C9: creating a Job with every field omitted fills the documented
defaults: `title=""`, `stage="saved"`, `requirements=[]`, `tags=[]`,
`notes=""` in the returned record. -/
theorem create_job_default_fill (s : DBState) (i now : String)
    (h : ∀ r ∈ s.jobs, r.id ≠ i) :
    (create_job s {} i now).1 = .ok (some (jobRecordOf {} i now))
    ∧ (jobRecordOf {} i now).title = ""
    ∧ (jobRecordOf {} i now).stage = "saved"
    ∧ (jobRecordOf {} i now).requirements = []
    ∧ (jobRecordOf {} i now).tags = []
    ∧ (jobRecordOf {} i now).notes = "" := by
  refine ⟨?_, rfl, rfl, rfl, rfl, rfl⟩
  rw [create_job_eq s {} i now h]

/-- Witness for C9 at a concrete empty store. -/
theorem create_job_default_fill_witness :
    (create_job {} {} "j1" "t1").1 = .ok (some (jobRecordOf {} "j1" "t1"))
    ∧ (jobRecordOf {} "j1" "t1").title = ""
    ∧ (jobRecordOf {} "j1" "t1").stage = "saved"
    ∧ (jobRecordOf {} "j1" "t1").requirements = []
    ∧ (jobRecordOf {} "j1" "t1").tags = []
    ∧ (jobRecordOf {} "j1" "t1").notes = "" :=
  create_job_default_fill {} "j1" "t1" (by simp)

/-- C4: `calculate_offer_value` fails with `DatabaseError("Offer not found")`
when no offer with the id exists, and otherwise returns the bundle with
`estimated_total_value = base_salary * 1.2` (`base_salary` coerced to 0 when
NULL); an offer created with `base_salary = 100000` values to 120000. -/
theorem calculate_offer_value_spec :
    (∀ s i, get_offer s i = none →
      calculate_offer_value s i = .error (.databaseError "Offer not found"))
    ∧ (∀ s i offer, get_offer s i = some offer →
      calculate_offer_value s i = .ok
        { offer_id := i, base_salary := offer.base_salary.getD 0,
          estimated_total_value := ((offer.base_salary.getD 0 : Int) : ℚ) * (1.2 : ℚ),
          calculation_note := "Estimated total value including benefits" })
    ∧ (∀ s i now, (∀ r ∈ s.offers, r.id ≠ i) →
      ∃ b, calculate_offer_value
            (create_offer s { base_salary := some 100000 } i now).2 i = .ok b
        ∧ b.estimated_total_value = (120000 : ℚ)
        ∧ b.base_salary = 100000) := by
  refine ⟨fun s i h => ?_, fun s i offer h => ?_, fun s i now h => ?_⟩
  · unfold calculate_offer_value
    rw [h]
  · unfold calculate_offer_value
    rw [h]
  · rw [create_offer_eq s _ i now h]
    refine ⟨⟨i, 100000, (100000 : ℚ) * (1.2 : ℚ),
      "Estimated total value including benefits"⟩, ?_, by norm_num, rfl⟩
    unfold calculate_offer_value get_offer
    dsimp only
    rw [filter_append_fresh _ _ _ (fun a ha => by simp [h a ha])
      (by simp [offerRowOf])]
    dsimp only
    norm_num [offerRowOf]

/-- C7: for a job alert whose stored `is_active` is a boolean (0 or 1, the
type the data model declares), `toggle` flips it and refreshes `updated_at`;
two consecutive toggles restore the original value; on an unknown id the
call returns `None`. -/
theorem toggle_job_alert_involution (s : DBState) (i now1 now2 : String)
    (a : AlertRow)
    (hu : s.job_alerts.filter (fun r => r.id = i) = [a])
    (hb : a.is_active = some 0 ∨ a.is_active = some 1) :
    (∃ a1, (toggle_job_alert s i now1).1 = some a1
      ∧ a1.is_active = sqliteNot a.is_active
      ∧ a1.is_active ≠ a.is_active
      ∧ a1.updated_at = now1)
    ∧ (∃ a2, (toggle_job_alert (toggle_job_alert s i now1).2 i now2).1 = some a2
      ∧ a2.is_active = a.is_active)
    ∧ (∀ (s2 : DBState) (j n : String), (∀ r ∈ s2.job_alerts, r.id ≠ j) →
        (toggle_job_alert s2 j n).1 = none) := by
  have hpres : ∀ (now : String) (r : AlertRow),
      (decide ((if r.id = i then
        { r with is_active := sqliteNot r.is_active, updated_at := now }
        else r).id = i)) = decide (r.id = i) := by
    intro now r
    by_cases hr : r.id = i <;> simp [hr]
  have ha_mem : a ∈ s.job_alerts.filter (fun r => r.id = i) := by
    rw [hu]; exact List.mem_singleton.2 rfl
  have hai : a.id = i := by
    have := (List.mem_filter.1 ha_mem).2
    simpa using this
  refine ⟨?_, ?_, ?_⟩
  · unfold toggle_job_alert get_job_alert
    dsimp only
    rw [filter_map_comm _ _ _ (hpres now1), hu]
    simp only [List.map_cons, List.map_nil, hai, if_true, ite_true, if_pos]
    refine ⟨_, rfl, rfl, ?_, rfl⟩
    rcases hb with hb | hb <;> simp [sqliteNot, hb]
  · unfold toggle_job_alert get_job_alert
    dsimp only
    rw [List.map_map]
    rw [filter_map_comm _ _ _ (fun r => by
      simp only [Function.comp]
      by_cases hr : r.id = i <;> simp [hr])]
    rw [hu]
    simp only [List.map_cons, List.map_nil, Function.comp, hai, if_true,
      ite_true, if_pos]
    refine ⟨_, rfl, ?_⟩
    rcases hb with hb | hb <;> simp [sqliteNot, hb]
  · intro s2 j n h
    unfold toggle_job_alert get_job_alert
    dsimp only
    rw [filter_map_comm _ _ _ (fun r => by by_cases hr : r.id = j <;> simp [hr])]
    rw [List.filter_eq_nil_iff.2 (fun r hr => by simp [h r hr])]
    rfl

/-- Witness for C7 at a concrete one-alert store. -/
theorem toggle_job_alert_involution_witness :
    (∃ a1, (toggle_job_alert
        { job_alerts := [alertRowOf {} "a1" "t0"] } "a1" "t1").1 = some a1
      ∧ a1.is_active = sqliteNot (alertRowOf {} "a1" "t0").is_active
      ∧ a1.is_active ≠ (alertRowOf {} "a1" "t0").is_active
      ∧ a1.updated_at = "t1")
    ∧ (∃ a2, (toggle_job_alert (toggle_job_alert
        { job_alerts := [alertRowOf {} "a1" "t0"] } "a1" "t1").2 "a1" "t2").1 = some a2
      ∧ a2.is_active = (alertRowOf {} "a1" "t0").is_active) :=
  ⟨(toggle_job_alert_involution { job_alerts := [alertRowOf {} "a1" "t0"] }
      "a1" "t1" "t2" (alertRowOf {} "a1" "t0") (by decide) (by decide)).1,
   (toggle_job_alert_involution { job_alerts := [alertRowOf {} "a1" "t0"] }
      "a1" "t1" "t2" (alertRowOf {} "a1" "t0") (by decide) (by decide)).2.1⟩

/-- C2 counterexample: the companies table (hence every company record, as
`SELECT *` keys the dict by the table's columns) has no `updated_at` field;
it has `last_updated` instead. -/
theorem company_missing_updated_at :
    "updated_at" ∉ companiesColumns ∧ "last_updated" ∈ companiesColumns := by
  constructor <;> decide

/-- C2 amended: every record of every entity carries `id` and `created_at`;
all entities except Company also carry `updated_at`, Company carrying
`last_updated` instead; and the timestamps are stamped by the store (the
Python clock or the engine `CURRENT_TIMESTAMP` default), never taken from
the caller-supplied fields. -/
theorem records_share_id_and_timestamps :
    ("id" ∈ jobsColumns ∧ "created_at" ∈ jobsColumns ∧ "updated_at" ∈ jobsColumns)
    ∧ ("id" ∈ companiesColumns ∧ "created_at" ∈ companiesColumns
        ∧ "last_updated" ∈ companiesColumns ∧ "updated_at" ∉ companiesColumns)
    ∧ ("id" ∈ contactsColumns ∧ "created_at" ∈ contactsColumns
        ∧ "updated_at" ∈ contactsColumns)
    ∧ ("id" ∈ offersColumns ∧ "created_at" ∈ offersColumns
        ∧ "updated_at" ∈ offersColumns)
    ∧ ("id" ∈ jobAlertsColumns ∧ "created_at" ∈ jobAlertsColumns
        ∧ "updated_at" ∈ jobAlertsColumns)
    ∧ ("id" ∈ interviewSessionsColumns ∧ "created_at" ∈ interviewSessionsColumns
        ∧ "updated_at" ∈ interviewSessionsColumns)
    ∧ (∀ (s : DBState) (f : JobFields) (i now : String),
        (∀ r ∈ s.jobs, r.id ≠ i) → ∃ jr,
          (create_job s f i now).1 = .ok (some jr)
          ∧ jr.id = i ∧ jr.created_at = now ∧ jr.updated_at = now)
    ∧ (∀ (s : DBState) (f : CompanyFields) (i now : String),
        (∀ r ∈ s.companies, r.id ≠ i) → ∃ cr,
          (create_company s f i now).1 = .ok (some cr)
          ∧ cr.id = i ∧ cr.created_at = now ∧ cr.last_updated = now)
    ∧ (∀ (s : DBState) (f : ContactFields) (i engineNow : String),
        (∀ r ∈ s.contacts, r.id ≠ i) → ∃ cr,
          (create_contact s f i engineNow).1 = .ok (some cr)
          ∧ cr.id = i ∧ cr.created_at = engineNow ∧ cr.updated_at = engineNow)
    ∧ (∀ (s : DBState) (f : OfferFields) (i engineNow : String),
        (∀ r ∈ s.offers, r.id ≠ i) → ∃ r,
          (create_offer s f i engineNow).1 = .ok (some r)
          ∧ r.id = i ∧ r.created_at = engineNow ∧ r.updated_at = engineNow)
    ∧ (∀ (s : DBState) (f : AlertFields) (i now : String),
        (∀ r ∈ s.job_alerts, r.id ≠ i) → ∃ r,
          (create_job_alert s f i now).1 = .ok (some r)
          ∧ r.id = i ∧ r.created_at = now ∧ r.updated_at = now)
    ∧ (∀ (s : DBState) (f : SessionFields) (i now : String),
        (∀ r ∈ s.interview_sessions, r.id ≠ i) → ∃ r,
          (create_interview_session s f i now).1 = .ok (some r)
          ∧ r.id = i ∧ r.created_at = now ∧ r.updated_at = now) := by
  refine ⟨by decide, by decide, by decide, by decide, by decide, by decide,
    ?_, ?_, ?_, ?_, ?_, ?_⟩
  · intro s f i now h
    rw [create_job_eq s f i now h]
    exact ⟨_, rfl, rfl, rfl, rfl⟩
  · intro s f i now h
    rw [create_company_eq s f i now h]
    exact ⟨_, rfl, rfl, rfl, rfl⟩
  · intro s f i now h
    rw [create_contact_eq s f i now h]
    exact ⟨_, rfl, rfl, rfl, rfl⟩
  · intro s f i now h
    rw [create_offer_eq s f i now h]
    exact ⟨_, rfl, rfl, rfl, rfl⟩
  · intro s f i now h
    rw [create_job_alert_eq s f i now h]
    exact ⟨_, rfl, rfl, rfl, rfl⟩
  · intro s f i now h
    rw [create_session_eq s f i now h]
    exact ⟨_, rfl, rfl, rfl, rfl⟩

/-- Witness for the amended C2 at a concrete empty store (jobs entity). -/
theorem records_share_id_and_timestamps_witness :
    ∃ jr, (create_job {} {} "j1" "t1").1 = .ok (some jr)
      ∧ jr.id = "j1" ∧ jr.created_at = "t1" ∧ jr.updated_at = "t1" :=
  records_share_id_and_timestamps.2.2.2.2.2.2.1 {} {} "j1" "t1" (by simp)

/-- C3 counterexample: an update whose partial fields mention `created_at`
overwrites it — the SET clause is built from every supplied key except
`id`. -/
theorem update_overwrites_created_at :
    ((update_job { jobs := [jobRowOf {} "j1" "2024-01-01T00:00:00"] } "j1"
        { created_at := some "1900-01-01T00:00:00" } "2024-01-02T00:00:00").2.jobs.map
      (fun r => r.created_at)) = ["1900-01-01T00:00:00"]
    ∧ (jobRowOf {} "j1" "2024-01-01T00:00:00").created_at
        = "2024-01-01T00:00:00" := by
  constructor <;> decide

/-- C3 amended: every update refreshes `updated_at` to now, so for a
monotone clock `update(id, {}).updated_at >= created_at` and a later
update's `updated_at` is never below an earlier one's; `created_at` never
changes across update calls whose partial fields do not mention
`created_at` (an update mentioning it overwrites it). -/
theorem update_monotonicity :
    (∀ (s : DBState) (i : String) (u : JobUpdate) (now : String),
      u.created_at = none →
        ((update_job s i u now).2.jobs.map (fun r => r.created_at))
          = s.jobs.map (fun r => r.created_at))
    ∧ (∀ (s : DBState) (i : String) (u : JobUpdate) (now : String)
        (jr : JobRecord),
        (update_job s i u now).1 = .ok (some jr) → jr.updated_at = now)
    ∧ (∀ (s : DBState) (i now : String) (jr : JobRecord),
        (∀ r ∈ s.jobs, r.created_at ≤ now) →
        (update_job s i {} now).1 = .ok (some jr) →
          jr.created_at ≤ jr.updated_at)
    ∧ (∀ (s : DBState) (i : String) (u1 u2 : JobUpdate) (now1 now2 : String)
        (jr1 jr2 : JobRecord), now1 ≤ now2 →
        (update_job s i u1 now1).1 = .ok (some jr1) →
        (update_job (update_job s i u1 now1).2 i u2 now2).1 = .ok (some jr2) →
          jr1.updated_at ≤ jr2.updated_at) := by
  have hupd : ∀ (s : DBState) (i : String) (u : JobUpdate) (now : String)
      (jr : JobRecord),
      (update_job s i u now).1 = .ok (some jr) → jr.updated_at = now := by
    intro s i u now jr h
    obtain ⟨r, _, _, hdec⟩ := update_job_ok s i u now jr h
    rw [(decodeJobRow_proj _ _ hdec).2.2, applyJobUpdate_updated_at]
  refine ⟨?_, hupd, ?_, ?_⟩
  · intro s i u now hc
    rw [update_job_state, List.map_map]
    exact List.map_congr_left (fun r hr => by
      by_cases hid : r.id = i <;>
        simp [Function.comp, hid, applyJobUpdate_created_at u now r hc])
  · intro s i now jr hclock h
    obtain ⟨r, hrm, _, hdec⟩ := update_job_ok s i {} now jr h
    have hproj := decodeJobRow_proj _ _ hdec
    rw [hproj.2.1, hproj.2.2, applyJobUpdate_updated_at,
      applyJobUpdate_created_at _ _ _ rfl]
    exact hclock r hrm
  · intro s i u1 u2 now1 now2 jr1 jr2 hle h1 h2
    rw [hupd s i u1 now1 jr1 h1, hupd _ i u2 now2 jr2 h2]
    exact hle

/-- Witness for the amended C3 at a concrete one-job store. -/
theorem update_monotonicity_witness :
    ((update_job { jobs := [jobRowOf {} "j1" "t1"] } "j1" {} "t2").2.jobs.map
        (fun r => r.created_at))
      = ({ jobs := [jobRowOf {} "j1" "t1"] } : DBState).jobs.map
          (fun r => r.created_at)
    ∧ (⟨"j1", "", "", none, none, none, none, [], "saved", "", [], none,
        "t1", "t2"⟩ : JobRecord).created_at
      ≤ (⟨"j1", "", "", none, none, none, none, [], "saved", "", [], none,
        "t1", "t2"⟩ : JobRecord).updated_at :=
  ⟨update_monotonicity.1 _ "j1" {} "t2" rfl,
   update_monotonicity.2.2.1 { jobs := [jobRowOf {} "j1" "t1"] } "j1" "t2" _
     (by
       intro r hr
       simp only [List.mem_singleton] at hr
       subst hr
       show (jobRowOf {} "j1" "t1").created_at ≤ "t2"
       simp [jobRowOf]
       decide)
     (by decide)⟩

/-- A jobs row whose `requirements` column holds malformed encoded list
data. -/
def badJobRow : JobRow :=
  { id := "j1", title := "t", company := "c", url := none, description := none,
    location := none, salary := none, requirements := some "not json",
    stage := "saved", notes := "", tags := some "[]", applied_date := none,
    created_at := "2024-01-01T00:00:00", updated_at := "2024-01-01T00:00:00" }

/-- C5 counterexample: reading back malformed encoded list data raises the
raw JSON decode error, not the `DatabaseError` (StorageError) taxonomy
case — so not every storage-layer failure surfaces as StorageError. -/
theorem storage_error_not_sole_escape :
    get_job { jobs := [badJobRow] } "j1" = .error .jsonDecodeError
    ∧ isStorageError .jsonDecodeError = false := by
  constructor
  · decide
  · rfl

/-- C5 amended: engine failures crossing `get_connection` are converted to
`DatabaseError` carrying the underlying message, with the in-flight state
rolled back (result state = entry state); a success passes through
untouched.  Malformed encoded list data, however, is decoded outside that
boundary and raises the JSON decode error unconverted. -/
theorem connection_boundary_spec :
    (∀ (s s2 : DBState) (act : DBState → Except String (Bool × DBState)) (a : Bool),
      act s = .ok (a, s2) → get_connection s act = (.ok a, s2))
    ∧ (∀ (s : DBState) (act : DBState → Except String (Bool × DBState)) (e : String),
      act s = .error e →
        get_connection s act =
          (.error (.databaseError ("Database error: " ++ e)), s))
    ∧ get_job { jobs := [badJobRow] } "j1" = .error .jsonDecodeError
    ∧ isStorageError .jsonDecodeError = false := by
  refine ⟨fun s s2 act a h => ?_, fun s act e h => ?_, by decide, rfl⟩
  · unfold get_connection
    rw [h]
  · unfold get_connection
    rw [h]

/-- Witness for the amended C5 at a concrete action. -/
theorem connection_boundary_spec_witness :
    get_connection {} (fun s => .ok (true, s)) = (.ok true, ({} : DBState))
    ∧ get_connection {}
        (fun _ => (.error "disk I/O error" : Except String (Bool × DBState)))
        = (.error (.databaseError "Database error: disk I/O error"), ({} : DBState)) :=
  ⟨connection_boundary_spec.1 {} {} _ true rfl,
   connection_boundary_spec.2.1 {} _ "disk I/O error" rfl⟩

/-- C1: for every entity type, `get(create(fields).id)` returns exactly the
create result — same record, with `id` the fresh id, the timestamps the
store clock, and (for jobs and interview sessions) the list-valued fields
decoded back to the very sequences supplied to create. -/
theorem create_get_round_trip :
    (∀ (s : DBState) (f : JobFields) (i now : String),
      (∀ r ∈ s.jobs, r.id ≠ i) →
        (create_job s f i now).1 = .ok (some (jobRecordOf f i now))
        ∧ get_job (create_job s f i now).2 i = (create_job s f i now).1
        ∧ (jobRecordOf f i now).id = i
        ∧ (jobRecordOf f i now).created_at = now
        ∧ (jobRecordOf f i now).updated_at = now
        ∧ (jobRecordOf f i now).requirements = f.requirements.getD []
        ∧ (jobRecordOf f i now).tags = f.tags.getD [])
    ∧ (∀ (s : DBState) (f : CompanyFields) (i now : String),
      (∀ r ∈ s.companies, r.id ≠ i) →
        (create_company s f i now).1 = .ok (some (companyRowOf f i now))
        ∧ (.ok (get_company (create_company s f i now).2 i) :
            Except PyError (Option CompanyRow)) = (create_company s f i now).1
        ∧ (companyRowOf f i now).id = i
        ∧ (companyRowOf f i now).created_at = now
        ∧ (companyRowOf f i now).last_updated = now)
    ∧ (∀ (s : DBState) (f : ContactFields) (i engineNow : String),
      (∀ r ∈ s.contacts, r.id ≠ i) →
        (create_contact s f i engineNow).1 = .ok (some (contactRowOf f i engineNow))
        ∧ (.ok (get_contact (create_contact s f i engineNow).2 i) :
            Except PyError (Option ContactRow)) = (create_contact s f i engineNow).1
        ∧ (contactRowOf f i engineNow).id = i
        ∧ (contactRowOf f i engineNow).created_at = engineNow
        ∧ (contactRowOf f i engineNow).updated_at = engineNow)
    ∧ (∀ (s : DBState) (f : OfferFields) (i engineNow : String),
      (∀ r ∈ s.offers, r.id ≠ i) →
        (create_offer s f i engineNow).1 = .ok (some (offerRowOf f i engineNow))
        ∧ (.ok (get_offer (create_offer s f i engineNow).2 i) :
            Except PyError (Option OfferRow)) = (create_offer s f i engineNow).1
        ∧ (offerRowOf f i engineNow).id = i
        ∧ (offerRowOf f i engineNow).created_at = engineNow
        ∧ (offerRowOf f i engineNow).updated_at = engineNow)
    ∧ (∀ (s : DBState) (f : AlertFields) (i now : String),
      (∀ r ∈ s.job_alerts, r.id ≠ i) →
        (create_job_alert s f i now).1 = .ok (some (alertRowOf f i now))
        ∧ (.ok (get_job_alert (create_job_alert s f i now).2 i) :
            Except PyError (Option AlertRow)) = (create_job_alert s f i now).1
        ∧ (alertRowOf f i now).id = i
        ∧ (alertRowOf f i now).created_at = now
        ∧ (alertRowOf f i now).updated_at = now)
    ∧ (∀ (s : DBState) (f : SessionFields) (i now : String),
      (∀ r ∈ s.interview_sessions, r.id ≠ i) →
        (create_interview_session s f i now).1 = .ok (some (sessionRecordOf f i now))
        ∧ get_interview_session (create_interview_session s f i now).2 i
            = (create_interview_session s f i now).1
        ∧ (sessionRecordOf f i now).id = i
        ∧ (sessionRecordOf f i now).created_at = now
        ∧ (sessionRecordOf f i now).updated_at = now
        ∧ (sessionRecordOf f i now).questions = f.questions.getD []
        ∧ (sessionRecordOf f i now).answers = f.answers.getD []) := by
  refine ⟨?_, ?_, ?_, ?_, ?_, ?_⟩
  · intro s f i now h
    have hc := create_job_eq s f i now h
    have hg : get_job ({ s with jobs := s.jobs ++ [jobRowOf f i now] } : DBState) i
        = .ok (some (jobRecordOf f i now)) := by
      unfold get_job
      dsimp only
      rw [filter_append_fresh _ _ _ (fun a ha => by simp [h a ha])
        (by simp [jobRowOf])]
      simp [decodeJobRow_rowOf]
    rw [hc]
    exact ⟨rfl, hg, rfl, rfl, rfl, rfl, rfl⟩
  · intro s f i now h
    have hc := create_company_eq s f i now h
    have hg : get_company
        ({ s with companies := s.companies ++ [companyRowOf f i now] } : DBState) i
        = some (companyRowOf f i now) := by
      unfold get_company
      dsimp only
      rw [filter_append_fresh _ _ _ (fun a ha => by simp [h a ha])
        (by simp [companyRowOf])]
    rw [hc]
    exact ⟨rfl, by rw [hg], rfl, rfl, rfl⟩
  · intro s f i now h
    have hc := create_contact_eq s f i now h
    have hg : get_contact
        ({ s with contacts := s.contacts ++ [contactRowOf f i now] } : DBState) i
        = some (contactRowOf f i now) := by
      unfold get_contact
      dsimp only
      rw [filter_append_fresh _ _ _ (fun a ha => by simp [h a ha])
        (by simp [contactRowOf])]
    rw [hc]
    exact ⟨rfl, by rw [hg], rfl, rfl, rfl⟩
  · intro s f i now h
    have hc := create_offer_eq s f i now h
    have hg : get_offer
        ({ s with offers := s.offers ++ [offerRowOf f i now] } : DBState) i
        = some (offerRowOf f i now) := by
      unfold get_offer
      dsimp only
      rw [filter_append_fresh _ _ _ (fun a ha => by simp [h a ha])
        (by simp [offerRowOf])]
    rw [hc]
    exact ⟨rfl, by rw [hg], rfl, rfl, rfl⟩
  · intro s f i now h
    have hc := create_job_alert_eq s f i now h
    have hg : get_job_alert
        ({ s with job_alerts := s.job_alerts ++ [alertRowOf f i now] } : DBState) i
        = some (alertRowOf f i now) := by
      unfold get_job_alert
      dsimp only
      rw [filter_append_fresh _ _ _ (fun a ha => by simp [h a ha])
        (by simp [alertRowOf])]
    rw [hc]
    exact ⟨rfl, by rw [hg], rfl, rfl, rfl⟩
  · intro s f i now h
    have hc := create_session_eq s f i now h
    have hg : get_interview_session
        ({ s with interview_sessions := s.interview_sessions ++ [sessionRowOf f i now] } : DBState) i
        = .ok (some (sessionRecordOf f i now)) := by
      unfold get_interview_session
      dsimp only
      rw [filter_append_fresh _ _ _ (fun a ha => by simp [h a ha])
        (by simp [sessionRowOf])]
      simp [decodeSessionRow_rowOf]
    rw [hc]
    exact ⟨rfl, hg, rfl, rfl, rfl, rfl, rfl⟩

/-- Witness for C1 at a concrete empty store, one conjunct per entity. -/
theorem create_get_round_trip_witness :
    ((create_job {} { requirements := some ["a", "b"] } "j1" "t1").1
        = .ok (some (jobRecordOf { requirements := some ["a", "b"] } "j1" "t1"))
      ∧ get_job (create_job {} { requirements := some ["a", "b"] } "j1" "t1").2 "j1"
        = (create_job {} { requirements := some ["a", "b"] } "j1" "t1").1)
    ∧ ((create_company {} { name := some "n" } "c1" "t1").1
        = .ok (some (companyRowOf { name := some "n" } "c1" "t1")))
    ∧ ((create_contact {} {} "p1" "t1").1 = .ok (some (contactRowOf {} "p1" "t1")))
    ∧ ((create_offer {} {} "o1" "t1").1 = .ok (some (offerRowOf {} "o1" "t1")))
    ∧ ((create_job_alert {} {} "a1" "t1").1 = .ok (some (alertRowOf {} "a1" "t1")))
    ∧ ((create_interview_session {} { answers := some ["x"] } "s1" "t1").1
        = .ok (some (sessionRecordOf { answers := some ["x"] } "s1" "t1"))) :=
  ⟨⟨(create_get_round_trip.1 {} _ "j1" "t1" (by simp)).1,
    (create_get_round_trip.1 {} _ "j1" "t1" (by simp)).2.1⟩,
   (create_get_round_trip.2.1 {} _ "c1" "t1" (by simp)).1,
   (create_get_round_trip.2.2.1 {} _ "p1" "t1" (by simp)).1,
   (create_get_round_trip.2.2.2.1 {} _ "o1" "t1" (by simp)).1,
   (create_get_round_trip.2.2.2.2.1 {} _ "a1" "t1" (by simp)).1,
   (create_get_round_trip.2.2.2.2.2 {} _ "s1" "t1" (by simp)).1⟩

/-- C6: `get_all` returns all rows in the per-entity default order —
companies and contacts sorted by name ascending, job alerts, jobs and
interview sessions by `created_at` descending (jobs and sessions with list
fields decoded, stated over the timestamp projection); creating companies
named "C", "A", "B" and listing them yields the order "A", "B", "C". -/
theorem get_all_default_ordering :
    (∀ s : DBState, List.Sorted companiesAsc (get_companies s)
      ∧ (get_companies s).Perm s.companies)
    ∧ (∀ s : DBState, List.Sorted contactsAsc (get_contacts s)
      ∧ (get_contacts s).Perm s.contacts)
    ∧ (∀ s : DBState, List.Sorted alertsDesc (get_job_alerts s)
      ∧ (get_job_alerts s).Perm s.job_alerts)
    ∧ (∀ (s : DBState) (l : List JobRecord), get_jobs s = .ok l →
        List.Pairwise (fun x y : String => y ≤ x)
          (l.map (fun r => r.created_at))
        ∧ (l.map (fun r => r.id)).Perm (s.jobs.map (fun r => r.id)))
    ∧ (∀ (s : DBState) (l : List SessionRecord),
        get_interview_sessions s = .ok l →
        List.Pairwise (fun x y : String => y ≤ x)
          (l.map (fun r => r.created_at))
        ∧ (l.map (fun r => r.id)).Perm
            (s.interview_sessions.map (fun r => r.id)))
    ∧ ((get_companies (create_company (create_company (create_company {}
          { name := some "C" } "c1" "t1").2
          { name := some "A" } "c2" "t2").2
          { name := some "B" } "c3" "t3").2).map (fun r => r.name)
        = ["A", "B", "C"]) := by
  refine ⟨?_, ?_, ?_, ?_, ?_, ?_⟩
  · intro s
    exact ⟨List.sorted_insertionSort companiesAsc s.companies,
      List.perm_insertionSort companiesAsc s.companies⟩
  · intro s
    exact ⟨List.sorted_insertionSort contactsAsc s.contacts,
      List.perm_insertionSort contactsAsc s.contacts⟩
  · intro s
    exact ⟨List.sorted_insertionSort alertsDesc s.job_alerts,
      List.perm_insertionSort alertsDesc s.job_alerts⟩
  · intro s l h
    unfold get_jobs at h
    have hm := decodeJobRows_maps _ _ h
    constructor
    · rw [hm.1, List.pairwise_map]
      exact List.sorted_insertionSort jobsDesc s.jobs
    · rw [hm.2]
      exact (List.perm_insertionSort jobsDesc s.jobs).map _
  · intro s l h
    unfold get_interview_sessions at h
    have hm := decodeSessionRows_maps _ _ h
    constructor
    · rw [hm.1, List.pairwise_map]
      exact List.sorted_insertionSort sessionsDesc s.interview_sessions
    · rw [hm.2]
      exact (List.perm_insertionSort sessionsDesc s.interview_sessions).map _
  · have hstate : (create_company (create_company (create_company {}
        { name := some "C" } "c1" "t1").2
        { name := some "A" } "c2" "t2").2
        { name := some "B" } "c3" "t3").2
        = { companies := [companyRowOf { name := some "C" } "c1" "t1",
            companyRowOf { name := some "A" } "c2" "t2",
            companyRowOf { name := some "B" } "c3" "t3"] } := by
      decide
    rw [hstate]
    have hAB : companiesAsc (companyRowOf { name := some "A" } "c2" "t2")
        (companyRowOf { name := some "B" } "c3" "t3") := by
      simp only [companiesAsc, companyRowOf]
      simp
      decide
    have hCA : ¬ companiesAsc (companyRowOf { name := some "C" } "c1" "t1")
        (companyRowOf { name := some "A" } "c2" "t2") := by
      simp only [companiesAsc, companyRowOf]
      simp
      decide
    have hCB : ¬ companiesAsc (companyRowOf { name := some "C" } "c1" "t1")
        (companyRowOf { name := some "B" } "c3" "t3") := by
      simp only [companiesAsc, companyRowOf]
      simp
      decide
    unfold get_companies
    show ((companyRowOf { name := some "C" } "c1" "t1" ::
      companyRowOf { name := some "A" } "c2" "t2" ::
      [companyRowOf { name := some "B" } "c3" "t3"]).insertionSort
        companiesAsc).map (fun r => r.name) = ["A", "B", "C"]
    rw [List.insertionSort, List.insertionSort, List.insertionSort,
      List.insertionSort, List.orderedInsert_nil]
    rw [List.orderedInsert, if_pos hAB]
    rw [List.orderedInsert, if_neg hCA]
    rw [List.orderedInsert, if_neg hCB, List.orderedInsert_nil]
    simp [companyRowOf]

/-- Witness for C6 at the empty store for the two hypothesis-guarded
conjuncts. -/
theorem get_all_default_ordering_witness :
    (List.Pairwise (fun x y : String => y ≤ x)
        (([] : List JobRecord).map (fun r => r.created_at))
      ∧ (([] : List JobRecord).map (fun r => r.id)).Perm
          ((({} : DBState)).jobs.map (fun r => r.id)))
    ∧ (List.Pairwise (fun x y : String => y ≤ x)
        (([] : List SessionRecord).map (fun r => r.created_at))
      ∧ (([] : List SessionRecord).map (fun r => r.id)).Perm
          ((({} : DBState)).interview_sessions.map (fun r => r.id))) :=
  ⟨get_all_default_ordering.2.2.2.1 {} [] rfl,
   get_all_default_ordering.2.2.2.2.1 {} [] rfl⟩

/-- Witness for C4 at concrete stores. -/
theorem calculate_offer_value_spec_witness :
    calculate_offer_value {} "o1" = .error (.databaseError "Offer not found")
    ∧ (∃ b, calculate_offer_value
          (create_offer {} { base_salary := some 100000 } "o1" "t1").2 "o1" = .ok b
        ∧ b.estimated_total_value = (120000 : ℚ)
        ∧ b.base_salary = 100000) :=
  ⟨calculate_offer_value_spec.1 {} "o1" rfl,
   calculate_offer_value_spec.2.2 {} "o1" "t1" (by simp)⟩

end Vault
